import Mathlib

/-!
Verification development for the `django_authz_tools` repository.

The Python sources are shallowly embedded: pure helpers become Lean
functions, attribute stores become association lists, and every code path
that can raise a Python exception returns `Except PyError`.  The embedded
definitions follow the source files
`helpers/var_parser.py`, `helpers/settings_utils.py`, `helpers/model_utils.py`,
`apps.py` and `auth_backends.py` statement by statement.
-/

/-- Python exception kinds that the embedded code can raise. -/
inductive PyError
  | attributeError
  | indexError
  | typeError
  | valueError
  | validationError
  | improperlyConfigured
  deriving DecidableEq

/-- Runtime types in the modelled Python universe (the results of `type(v)`). -/
inductive PyType
  | intT
  | strT
  | boolT
  | noneT
  | typeT
  | enumT
  | functionT
  | propertyT
  deriving DecidableEq

/-- Access classification, from `var_parser.AccessType` (a StrEnum in the source).
`PROTECTED` and `PRIVATE` get a trailing underscore because they collide with
Lean keywords. -/
inductive AccessType
  | public
  | protected_
  | private_
  | dunder
  deriving DecidableEq

/-- Python values in the modelled universe.  Type objects, enum members,
functions and property objects are first-class values because the source
stores all of them in `ObjInfo` slots. -/
inductive PyVal
  | int (n : Int)
  | str (s : String)
  | bool (b : Bool)
  | noneV
  | typeV (t : PyType)
  | accessV (a : AccessType)
  | func (fid : Nat)
  | propertyV (attr : String)
  deriving DecidableEq

/-- Python `type(v)` on the modelled values. -/
def PyVal.pyType : PyVal → PyType
  | .int _ => .intT
  | .str _ => .strT
  | .bool _ => .boolT
  | .noneV => .noneT
  | .typeV _ => .typeT
  | .accessV _ => .enumT
  | .func _ => .functionT
  | .propertyV _ => .propertyT

/-- Python `callable(v)`: classes and functions are callable, the rest of the
modelled values are not. -/
def PyVal.callable : PyVal → Bool
  | .typeV _ => true
  | .func _ => true
  | _ => false

/-- Python slice `s[:n]`. -/
def strTake (s : String) (n : Nat) : String :=
  String.mk (s.toList.take n)

/-- Python slice `s[-n:]` (the whole string when it is shorter than `n`). -/
def strTakeRight (s : String) (n : Nat) : String :=
  String.mk ((s.toList.reverse.take n).reverse)

/-- Python `s.upper()` (modelled character-wise, adequate for identifiers). -/
def pyUpper (s : String) : String :=
  String.mk (s.toList.map Char.toUpper)

/-- Source `AccessType.from_obj_name` (var_parser.py lines 68-75): slicing
`name[-2:]`, `name[:2]`, `name[:1]` and comparing against underscores. -/
def AccessType.from_obj_name (name : String) : AccessType :=
  if strTakeRight name 2 == "__" && strTake name 2 == "__" then AccessType.dunder
  else if strTake name 2 == "__" then AccessType.private_
  else if strTake name 1 == "_" then AccessType.protected_
  else AccessType.public

/-- Source `_is_const` (var_parser.py line 92): `name == name.upper()`. -/
def _is_const (name : String) : Bool :=
  name == pyUpper name

/-- Python `name.strip("_")`: drop leading and trailing underscore characters. -/
def pyStrip (s : String) : String :=
  String.mk (((s.toList.dropWhile (fun c => c == '_')).reverse.dropWhile (fun c => c == '_')).reverse)

/-- Source `_is_class` (var_parser.py lines 96-102).  The source evaluates
`first_char, other_chars = name.strip("_")[1], name.strip("_")[0:]` — index 1
of the stripped name, raising IndexError when the stripped name has fewer than
two characters — and then returns
`first_char.isupper() and "_" not in name and any([char != char.upper() for char in name])`
(the `any` runs over the whole original `name`; `other_chars` is unused). -/
def _is_class (name : String) : Except PyError Bool :=
  match (pyStrip name).toList.get? 1 with
  | Option.none => Except.error PyError.indexError
  | Option.some first_char =>
      Except.ok (first_char.isUpper && !(name.toList.contains '_') &&
        (name.toList.any (fun char => char != char.toUpper)))

/-- The seven arguments of `ObjInfo.__init__` (var_parser.py lines 136-145).
Python does not enforce the parameter annotations, so every argument is an
arbitrary runtime value. -/
structure ObjInfoArgs where
  name : PyVal
  value : PyVal
  type_ : PyVal
  access_type : PyVal
  is_const : PyVal
  is_class : PyVal
  is_callable : PyVal
  deriving DecidableEq

/-- The constructor arguments in the positional order used by `__init__`
(`args = [name, value, type, access_type, is_const, is_class, is_callable]`). -/
def ObjInfoArgs.asList (a : ObjInfoArgs) : List PyVal :=
  [a.name, a.value, a.type_, a.access_type, a.is_const, a.is_class, a.is_callable]

/-- A constructed `ObjInfo` instance, represented by its slot store (the class
uses `__slots__`, so an instance is exactly a finite map from assigned slot
names to values). -/
structure ObjInfoState where
  slots : List (String × PyVal)
  deriving DecidableEq

/-- Source `ObjInfo.property_names` (var_parser.py line 133). -/
def ObjInfo.property_names : List String :=
  ["name", "value", "type", "access_type", "is_const", "is_class", "is_callable"]

/-- Slot store right after the assignment loop in `ObjInfo.__init__`
(`for name, value in zip(self.property_names, args): setattr(self, f"_{name}", value)`):
only the underscore-prefixed slots are assigned. -/
def ObjInfo.initSlots (a : ObjInfoArgs) : List (String × PyVal) :=
  (ObjInfo.property_names.zip a.asList).map (fun p => ("_" ++ p.1, p.2))

/-- Python attribute read on an `ObjInfo` instance: a `__slots__` lookup;
reading a slot that was never assigned raises AttributeError. -/
def ObjInfo.getattrSlot (slots : List (String × PyVal)) (attr : String) : Except PyError PyVal :=
  match slots.lookup attr with
  | Option.some v => Except.ok v
  | Option.none => Except.error PyError.attributeError

/-- Source `ObjInfo._types_consistent` (var_parser.py lines 181-186): raises
`ValidationError` when `type(value) != type_`. -/
def ObjInfo.types_consistent (value : PyVal) (type_ : PyVal) : Except PyError Unit :=
  if PyVal.typeV value.pyType != type_ then Except.error PyError.validationError
  else Except.ok ()

/-- Source `ObjInfo.validate` (var_parser.py lines 178-179):
`self._types_consistent(value=self.value, type_=self.type)` — it reads the
public slots `value` and `type` of the instance (keyword arguments are
evaluated left to right). -/
def ObjInfo.validate (slots : List (String × PyVal)) : Except PyError Unit := do
  let value ← ObjInfo.getattrSlot slots "value"
  let type_ ← ObjInfo.getattrSlot slots "type"
  ObjInfo.types_consistent value type_

/-- Python `setattr` on an attribute store: overwrite in place or append. -/
def setSlot : List (String × PyVal) → String → PyVal → List (String × PyVal)
  | [], n, v => [(n, v)]
  | (k, w) :: rest, n, v => if k == n then (k, v) :: rest else (k, w) :: setSlot rest n v

/-- Source `ObjInfo._set_readonly_properties` (var_parser.py lines 188-190):
stores a property object into each public slot. -/
def ObjInfo.set_readonly_properties (slots : List (String × PyVal)) : List (String × PyVal) :=
  ObjInfo.property_names.foldl (fun s n => setSlot s n (PyVal.propertyV n)) slots

/-- Source `ObjInfo.__init__` (var_parser.py lines 136-151): run the slot
assignment loop, then `self.validate()`, then `self._set_readonly_properties()`. -/
def ObjInfo.init (a : ObjInfoArgs) : Except PyError ObjInfoState := do
  let slots := ObjInfo.initSlots a
  ObjInfo.validate slots
  Except.ok ⟨ObjInfo.set_readonly_properties slots⟩

/-- Source `ObjInfo.from_name_and_value` (var_parser.py lines 162-176): build
the keyword arguments left to right (`type(value)`, `AccessType.from_obj_name`,
`_is_const`, `_is_class` — which can raise IndexError — and `callable(value)`),
then call the constructor. -/
def ObjInfo.from_name_and_value (name : String) (value : PyVal) : Except PyError ObjInfoState := do
  let type_ := PyVal.typeV value.pyType
  let access_type := PyVal.accessV (AccessType.from_obj_name name)
  let is_const_arg := PyVal.bool (_is_const name)
  let is_class_bit ← _is_class name
  let is_callable_arg := PyVal.bool value.callable
  ObjInfo.init ⟨PyVal.str name, value, type_, access_type, is_const_arg, PyVal.bool is_class_bit, is_callable_arg⟩

/-- Source `ParsingOptions` (var_parser.py lines 201-210): a frozen dataclass
of an optional set of access types and three optional boolean filters. -/
structure ParsingOptions where
  access_types : Option (List AccessType)
  is_const : Option Bool
  is_class : Option Bool
  is_callable : Option Bool
  deriving DecidableEq

/-- Source `ParsingOptions.is_valid_for` (var_parser.py lines 212-218):
construct an `ObjInfo` for the pair (which can raise), read its
`access_type` attribute, test membership in `access_types` unless that set is
falsy (None or empty), and compute
`all([b in [True, None] for b in (self.is_class, self.is_class, self.is_callable)])`
— the source really lists `is_class` twice and never consults `is_const`. -/
def ParsingOptions.is_valid_for (o : ParsingOptions) (name : String) (value : PyVal) : Except PyError Bool := do
  let obj_info ← ObjInfo.from_name_and_value name value
  let access_attr ← ObjInfo.getattrSlot obj_info.slots "access_type"
  let is_access_valid :=
    match o.access_types with
    | Option.none => true
    | Option.some ats => ats.isEmpty || ats.any (fun a => PyVal.accessV a == access_attr)
  let is_other_valid :=
    [o.is_class, o.is_class, o.is_callable].all (fun b => b == Option.some true || b == Option.none)
  Except.ok (is_access_valid && is_other_valid)

/-- A Python module namespace: its attribute names in `dir(module)` order,
paired with the value `getattr(module, name)` of each. -/
structure PyModule where
  attrs : List (String × PyVal)
  deriving DecidableEq

/-- The guard of the list comprehension in `parse_module_attrs`
(var_parser.py line 235): `options and options.is_valid_for(name, value(name))`.
When `options` is `None` the conjunction short-circuits to the falsy `None`
without calling `is_valid_for`. -/
def parseGuard (options : Option ParsingOptions) (name : String) (value : PyVal) : Except PyError Bool :=
  match options with
  | Option.none => Except.ok false
  | Option.some o => o.is_valid_for name value

/-- The list comprehension of `parse_module_attrs` (var_parser.py lines 232-236),
one step per `dir(module)` entry: evaluate the guard; when it holds, the
element expression calls `ObjInfo.from_name_and_value` (again) and the record
is kept. -/
def parseAttrsList (options : Option ParsingOptions) : List (String × PyVal) → Except PyError (List ObjInfoState)
  | [] => Except.ok []
  | (name, v) :: rest => do
      let keep ← parseGuard options name v
      if keep then
        let info ← ObjInfo.from_name_and_value name v
        let tail ← parseAttrsList options rest
        Except.ok (info :: tail)
      else
        parseAttrsList options rest

/-- Source `parse_module_attrs` (var_parser.py lines 228-236). -/
def parse_module_attrs (module : PyModule) (options : Option ParsingOptions) : Except PyError (List ObjInfoState) :=
  parseAttrsList options module.attrs

/-- Source `parse_consts_from_module` (var_parser.py lines 239-250): call
`parse_module_attrs` with the policy
`ParsingOptions(access_types={PUBLIC}, is_const=True, is_class=False, is_callable=False)`. -/
def parse_consts_from_module (module : PyModule) : Except PyError (List ObjInfoState) :=
  parse_module_attrs module
    (Option.some ⟨Option.some [AccessType.public], Option.some true, Option.some false, Option.some false⟩)

/-- The global configuration object (`django.conf.settings`): an ordered
attribute store. -/
structure DjangoSettings where
  entries : List (String × PyVal)
  deriving DecidableEq

/-- Python `hasattr(django_settings, name)`. -/
def DjangoSettings.hasattr (s : DjangoSettings) (name : String) : Bool :=
  (s.entries.lookup name).isSome

/-- Source `add_const_to_settings` (settings_utils.py lines 13-14):
`setattr(django_settings, name, value)`. -/
def add_const_to_settings (django_settings : DjangoSettings) (name : String) (value : PyVal) : DjangoSettings :=
  ⟨setSlot django_settings.entries name value⟩

/-- Source `add_consts_to_settings` (settings_utils.py lines 23-25): set each
(name, value) pair in turn. -/
def add_consts_to_settings (django_settings : DjangoSettings) (consts : List (String × PyVal)) : DjangoSettings :=
  consts.foldl (fun s c => add_const_to_settings s c.1 c.2) django_settings

/-- The comprehension inside `load_missed_consts_from_module_into_settings`
(settings_utils.py lines 32-36): for each parsed record, read its `name` and
`value` attributes, and keep the pair when
`not hasattr(django_settings, const.name)`.  `hasattr` demands a string
attribute name, raising TypeError otherwise. -/
def missedConsts (django_settings : DjangoSettings) : List ObjInfoState → Except PyError (List (String × PyVal))
  | [] => Except.ok []
  | c :: rest => do
      let n ← ObjInfo.getattrSlot c.slots "name"
      let v ← ObjInfo.getattrSlot c.slots "value"
      match n with
      | PyVal.str nm =>
          let tail ← missedConsts django_settings rest
          if django_settings.hasattr nm then Except.ok tail else Except.ok ((nm, v) :: tail)
      | _ => Except.error PyError.typeError

/-- Source `load_missed_consts_from_module_into_settings`
(settings_utils.py lines 28-37): parse the module constants, keep those whose
names are absent from the settings object, and set them. -/
def load_missed_consts_from_module_into_settings (django_settings : DjangoSettings) (module : PyModule) : Except PyError DjangoSettings := do
  let consts_from_module ← parse_consts_from_module module
  let missed ← missedConsts django_settings consts_from_module
  Except.ok (add_consts_to_settings django_settings missed)

/-- The parameter list of `load_missed_consts_from_module_into_settings`
(settings_utils.py line 28); both parameters lack defaults. -/
def load_missed_consts_params : List String :=
  ["django_settings", "module"]

/-- The keyword names used at the call site in `on_startup`
(apps.py lines 26-29): `django_settings=settings, consts_module=consts`. -/
def on_startup_merge_kwargs : List String :=
  ["django_settings", "consts_module"]

/-- Python keyword-argument binding for a function whose parameters all lack
defaults: an unexpected keyword, or a missing required parameter, raises
TypeError before the body runs. -/
def bindCallKwargs (params : List String) (kwargs : List String) : Except PyError Unit :=
  if kwargs.all (fun k => params.contains k) && params.all (fun p => kwargs.contains p)
  then Except.ok ()
  else Except.error PyError.typeError

/-- A Django `ManyToManyRel` as far as `model_utils.py` could observe it:
`rel.model` is the relation's target model class (`ForeignObjectRel.__init__`
stores `self.model = to`), while `rel.field.model` is the model the field is
declared on.  Model classes are identified by `Nat` ids. -/
structure ManyToManyRel where
  model : Nat
  field_owner : Nat
  deriving DecidableEq

/-- The `ManyToManyDescriptor` that class-level access to a declared
`ManyToManyField` yields (django related_descriptors.py):
`ReverseManyToOneDescriptor.__init__` stores `rel` and `field = rel.field`,
and `ManyToManyDescriptor.__init__` adds `reverse`; `through` and
`related_manager_cls` are its only properties.  It defines no `model`
attribute — the relation's target is reachable only as `rel.model`. -/
structure ManyToManyDescriptor where
  rel : ManyToManyRel
  reverse : Bool
  deriving DecidableEq

/-- The value of one instance attribute of a `ManyToManyDescriptor`. -/
inductive DescAttrVal
  | relV (r : ManyToManyRel)
  | fieldV (owner : Nat)
  | boolV (b : Bool)
  deriving DecidableEq

/-- The attribute store of a `ManyToManyDescriptor`: `rel`, `field` (whose
own `model` is the declaring model, never the target) and `reverse`. -/
def ManyToManyDescriptor.attrs (d : ManyToManyDescriptor) : List (String × DescAttrVal) :=
  [("rel", DescAttrVal.relV d.rel), ("field", DescAttrVal.fieldV d.rel.field_owner),
   ("reverse", DescAttrVal.boolV d.reverse)]

/-- Python `getattr` on a `ManyToManyDescriptor`: in particular,
`getattr(descriptor, "model")` raises AttributeError. -/
def ManyToManyDescriptor.getattr (d : ManyToManyDescriptor) (attr : String) : Except PyError DescAttrVal :=
  match d.attrs.lookup attr with
  | Option.some v => Except.ok v
  | Option.none => Except.error PyError.attributeError

/-- The value of the `groups` (or `permissions`) attribute read off a model
class by `model_utils.py`: missing (`getattr` raises AttributeError), `None`
(the `groups = None` mixins), the `ManyToManyDescriptor` of a declared
many-to-many field (the standard configuration), or — the attribute being
dynamically typed — some other truthy object, which may or may not expose a
model class under a `model` attribute. -/
inductive RelAttr
  | absent
  | noneVal
  | descriptor (d : ManyToManyDescriptor)
  | plainObj (model_attr : Option Nat)
  deriving DecidableEq

/-- The framework environment `model_utils.py` runs in: the configured user
model's `groups` attribute, each model's `permissions` attribute, and the
`issubclass` tests against the `Group` and `Permission` union bases of
`models/base.py`. -/
structure AuthEnv where
  user_groups : RelAttr
  group_permissions : Nat → RelAttr
  is_group_subclass : Nat → Bool
  is_permission_subclass : Nat → Bool

/-- Source `get_group_model` (model_utils.py lines 14-26):
`groups = getattr(user_model, "groups")`; the check
`if groups and not issubclass(groups.model, Group)` evaluates `groups.model`
whenever `groups` is truthy, and the function ends with
`return getattr(groups, "model")`.  On the standard configuration `groups`
is a `ManyToManyDescriptor`, so the `model` read raises AttributeError
(were one of the descriptor's real attribute values returned instead,
`issubclass` on that non-class would raise TypeError); when `groups` is
`None` the truthiness check is skipped and `getattr(None, "model")` raises
AttributeError; only a nonstandard object exposing a model class under
`model` reaches the `issubclass` test and the return. -/
def get_group_model (env : AuthEnv) : Except PyError Nat :=
  match env.user_groups with
  | RelAttr.absent => Except.error PyError.attributeError
  | RelAttr.noneVal => Except.error PyError.attributeError
  | RelAttr.descriptor d => do
      let _groups_model ← d.getattr "model"
      Except.error PyError.typeError
  | RelAttr.plainObj Option.none => Except.error PyError.attributeError
  | RelAttr.plainObj (Option.some m) =>
      if env.is_group_subclass m then Except.ok m
      else Except.error PyError.improperlyConfigured

/-- Source `get_permission_model` (model_utils.py lines 29-41): resolve the
group model first, then do the same walk over its `permissions` attribute
against the `Permission` base, with the same `model`-read behaviour. -/
def get_permission_model (env : AuthEnv) : Except PyError Nat := do
  let group_model ← get_group_model env
  match env.group_permissions group_model with
  | RelAttr.absent => Except.error PyError.attributeError
  | RelAttr.noneVal => Except.error PyError.attributeError
  | RelAttr.descriptor d => do
      let _permissions_model ← d.getattr "model"
      Except.error PyError.typeError
  | RelAttr.plainObj Option.none => Except.error PyError.attributeError
  | RelAttr.plainObj (Option.some m) =>
      if env.is_permission_subclass m then Except.ok m
      else Except.error PyError.improperlyConfigured

/-- Source `on_startup` (apps.py lines 15-29): publish the resolved group and
permission models into the settings, then call
`load_missed_consts_from_module_into_settings(django_settings=settings, consts_module=consts)` —
the keyword names of that call are bound against the callee's parameter list
before its body can run. -/
def on_startup (env : AuthEnv) (settings : DjangoSettings) (consts : PyModule) : Except PyError DjangoSettings := do
  let g ← get_group_model env
  let settings1 := add_const_to_settings settings "AUTH_GROUP_MODEL" (PyVal.int (Int.ofNat g))
  let p ← get_permission_model env
  let settings2 := add_const_to_settings settings1 "AUTH_PERMISSION_MODEL" (PyVal.int (Int.ofNat p))
  bindCallKwargs load_missed_consts_params on_startup_merge_kwargs
  load_missed_consts_from_module_into_settings settings2 consts

/-- A field object of the host ORM, as far as `from_abstract_to_concrete_model`
inspects it: its `name` and an identity. -/
structure DjField where
  fname : String
  fid : Nat
  deriving DecidableEq

/-- An abstract entity-type template: its `_meta.abstract` flag, declared
fields (`_meta.fields` order), and defining module. -/
structure ModelTemplate where
  meta_abstract : Bool
  fields : List DjField
  module_name : String
  deriving DecidableEq

/-- A synthesized concrete entity type: merged field dict plus the `Meta`
attributes the source sets. -/
structure ConcreteModel where
  meta_abstract : Bool
  app_label : String
  verbose_name : String
  module_name : String
  fields : List (String × DjField)
  deriving DecidableEq

/-- Python dict update `d[k] = v`: overwrite in place, else append. -/
def pyDictSet : List (String × DjField) → String → DjField → List (String × DjField)
  | [], k, v => [(k, v)]
  | (k0, v0) :: rest, k, v =>
      if k0 == k then (k0, v) :: rest else (k0, v0) :: pyDictSet rest k v

/-- Python dict merge `d1 | d2`: entries of `d2` win on key collision. -/
def pyDictMerge (d1 d2 : List (String × DjField)) : List (String × DjField) :=
  d2.foldl (fun acc kv => pyDictSet acc kv.1 kv.2) d1

/-- Source `from_abstract_to_concrete_model` (model_utils.py lines 58-91):
raise `ValueError("Provided model is not abstract.")` unless
`abstract_model._meta.abstract`; build a dict keyed by field name from the
template's declared fields and merge the overrides over it with the dict
union operator, so an override wins on a name collision; then construct the
concrete type with `Meta.abstract = False`,
`Meta.app_label = get_app_label()` (the owning app looked up from the caller's
module — passed in here as `app_label`), and `Meta.verbose_name = new_model_name`. -/
def from_abstract_to_concrete_model (abstract_model : ModelTemplate) (new_model_name : String)
    (field_overrides : List (String × DjField)) (app_label : String) : Except PyError ConcreteModel :=
  if !abstract_model.meta_abstract then Except.error PyError.valueError
  else
    Except.ok
      ⟨false, app_label, new_model_name, abstract_model.module_name,
        pyDictMerge (abstract_model.fields.map (fun f => (f.fname, f))) field_overrides⟩

/-- A principal as `auth_backends.ModelBackend._get_permissions` inspects it:
the three flags plus the instance attributes that exist on it (the permission
caches, each a set of "app_label.codename" strings). -/
structure AuthUser where
  is_active : Bool
  is_anonymous : Bool
  is_superuser : Bool
  instance_attrs : List (String × List String)
  deriving DecidableEq

/-- Source `ModelBackend._get_permissions` (auth_backends.py lines 32-56):
return the empty set for inactive or anonymous users or when `obj` is given;
otherwise, when the `_<from_name>_perm_cache` attribute is missing, build the
permission queryset (a lazy, effect-free value the function then discards —
the two statements that stored it on the user are commented out in the
source) and finally `return getattr(user_obj, perm_cache_name)`. -/
def ModelBackend.get_permissions (user_obj : AuthUser) (obj : Option Nat) (from_name : String) : Except PyError (List String) :=
  if !user_obj.is_active || user_obj.is_anonymous || obj.isSome then Except.ok []
  else
    match user_obj.instance_attrs.lookup ("_" ++ from_name ++ "_perm_cache") with
    | Option.some cached => Except.ok cached
    | Option.none => Except.error PyError.attributeError

/-- The class-likeness rule exactly as the specification words it
(spec section 4.1, the rule claim C7 restates): the stripped-of-underscores
name has an upper-case first character, the name contains no underscore, and
the name has at least one character elsewhere that is not upper-case. -/
def spec_is_class (name : String) : Bool :=
  match (pyStrip name).toList with
  | [] => false
  | c :: rest => c.isUpper && !(name.toList.contains '_') && rest.any (fun ch => ch != ch.toUpper)

/-- Shared fact behind several claims: `ObjInfo.__init__` always raises
AttributeError, because `validate()` reads the public slot `value`, which the
assignment loop never touched (it assigned only the underscore-prefixed
slots). -/
theorem objinfo_init_always_attribute_error (a : ObjInfoArgs) :
    ObjInfo.init a = Except.error PyError.attributeError := rfl

/-- C1: the spec promises a full dump when no filter policy is supplied, but
`parse_module_attrs(module, None)` returns the empty list for every module:
the comprehension guard `options and options.is_valid_for(...)` is falsy when
`options` is None, so every attribute is filtered out. -/
theorem c1_parse_module_attrs_no_options_returns_empty (module : PyModule) :
    parse_module_attrs module Option.none = Except.ok [] := by
  unfold parse_module_attrs
  induction module.attrs with
  | nil => rfl
  | cons hd tl ih => exact ih

/-- C2: constructing an `ObjInfo` raises AttributeError for every choice of
the seven constructor arguments (the `validate()` call reads the unassigned
public slots), and consequently `ObjInfo.from_name_and_value` never returns a
record for any name/value pair — every run ends in an exception. -/
theorem c2_objinfo_construction_never_succeeds :
    (∀ a : ObjInfoArgs, ObjInfo.init a = Except.error PyError.attributeError) ∧
    (∀ (name : String) (value : PyVal), ∃ e : PyError,
      ObjInfo.from_name_and_value name value = Except.error e) := by
  constructor
  · exact objinfo_init_always_attribute_error
  · intro name value
    cases h : _is_class name with
    | error e =>
        refine ⟨e, ?_⟩
        unfold ObjInfo.from_name_and_value
        rw [h]
        rfl
    | ok b =>
        refine ⟨PyError.attributeError, ?_⟩
        unfold ObjInfo.from_name_and_value
        rw [h]
        exact objinfo_init_always_attribute_error
          ⟨PyVal.str name, value, PyVal.typeV value.pyType,
           PyVal.accessV (AccessType.from_obj_name name), PyVal.bool (_is_const name),
           PyVal.bool b, PyVal.bool value.callable⟩

/-- C3: on every standard configuration — the user model's `groups` is a
declared many-to-many field, so class access yields a `ManyToManyDescriptor`,
which has no `model` attribute — `get_group_model` raises AttributeError at
the `groups.model` read and `get_permission_model` propagates it: the
resolver neither raises ImproperlyConfigured for a non-Group target nor
returns the declared target types, so both halves of the claim fail on the
program. -/
theorem c3_resolvers_raise_attribute_error_on_descriptor (env : AuthEnv)
    (d : ManyToManyDescriptor) (h : env.user_groups = RelAttr.descriptor d) :
    get_group_model env = Except.error PyError.attributeError ∧
    get_permission_model env = Except.error PyError.attributeError := by
  have hg : get_group_model env = Except.error PyError.attributeError := by
    unfold get_group_model
    rw [h]
    rfl
  refine ⟨hg, ?_⟩
  unfold get_permission_model
  rw [hg]
  rfl

/-- Witness for C3 at a concrete descriptor configuration (relation target
model 7, declared on model 3): whether the target is a Group subclass is
never even consulted. -/
theorem c3_resolvers_raise_attribute_error_on_descriptor_witness :
    get_group_model ⟨RelAttr.descriptor ⟨⟨7, 3⟩, false⟩, fun _ => RelAttr.absent,
      fun _ => true, fun _ => true⟩ = Except.error PyError.attributeError ∧
    get_permission_model ⟨RelAttr.descriptor ⟨⟨7, 3⟩, false⟩, fun _ => RelAttr.absent,
      fun _ => true, fun _ => true⟩ = Except.error PyError.attributeError :=
  c3_resolvers_raise_attribute_error_on_descriptor
    ⟨RelAttr.descriptor ⟨⟨7, 3⟩, false⟩, fun _ => RelAttr.absent, fun _ => true, fun _ => true⟩
    ⟨⟨7, 3⟩, false⟩ rfl

/-- C4: for an active, non-anonymous user the backend returns the empty set
when `obj` is supplied, but with `obj = None` it raises AttributeError instead
of returning and caching the user's direct permission set: the two caching
statements are commented out in the source, so the final
`getattr(user_obj, "_user_perm_cache")` reads an attribute that was never
written. -/
theorem c4_get_permissions_cache_never_written :
    ModelBackend.get_permissions ⟨true, false, false, []⟩ (Option.some 0) "user" = Except.ok [] ∧
    ModelBackend.get_permissions ⟨true, false, false, []⟩ Option.none "user" =
      Except.error PyError.attributeError :=
  ⟨rfl, rfl⟩

/-- C5: the Settings Merger never completes on a module with an attribute: the
classification of the very first attribute raises AttributeError inside the
`ObjInfo` constructor before any constant can be copied or skipped, so the
claimed merge-and-skip idempotence never comes into play. -/
theorem c5_settings_merger_raises_before_merging :
    load_missed_consts_from_module_into_settings ⟨[]⟩ ⟨[("TIMEOUT", PyVal.int 5)]⟩ =
      Except.error PyError.attributeError := rfl

/-- C6: constructing `ObjInfo` with a value whose runtime type differs from
the declared type (here an int declared as str) fails — but with
AttributeError from the unassigned-slot read in `validate()`, not with the
ValidationError that `_types_consistent` was written to raise. -/
theorem c6_type_mismatch_raises_attribute_error_not_validation :
    decide ((PyVal.int 1).pyType = PyType.strT) = false ∧
    ObjInfo.init ⟨PyVal.str "N", PyVal.int 1, PyVal.typeV PyType.strT,
      PyVal.accessV AccessType.public, PyVal.bool false, PyVal.bool false, PyVal.bool false⟩ =
      Except.error PyError.attributeError :=
  ⟨rfl, rfl⟩

/-- C7: the classifier disagrees with the spec rule on concrete names.
"Abcd" satisfies the spec rule (upper-case first character, no underscore, a
non-upper-case character elsewhere) yet `_is_class` returns False, and "aXbc"
violates the spec rule (lower-case first character) yet `_is_class` returns
True — the source tests character index 1 of the stripped name, not index 0. -/
theorem c7_is_class_diverges_from_spec_rule :
    spec_is_class "Abcd" = true ∧ _is_class "Abcd" = Except.ok false ∧
    spec_is_class "aXbc" = false ∧ _is_class "aXbc" = Except.ok true :=
  ⟨rfl, rfl, rfl, rfl⟩

/-- Counterexample for C8: on a non-abstract template the synthesizer raises
ValueError, which is not the TypeError the claim states. -/
theorem c8_non_abstract_synthesis_counterexample :
    from_abstract_to_concrete_model ⟨false, [], "mod"⟩ "NewModel" [] "app" =
      Except.error PyError.valueError ∧
    decide (PyError.valueError = PyError.typeError) = false :=
  ⟨rfl, rfl⟩

/-- C8 as amended: for every entity-type template that is not marked abstract,
`from_abstract_to_concrete_model` fails with a value error (ValueError). -/
theorem c8_non_abstract_synthesis_fails_with_value_error (abstract_model : ModelTemplate)
    (new_model_name : String) (field_overrides : List (String × DjField)) (app_label : String)
    (h : abstract_model.meta_abstract = false) :
    from_abstract_to_concrete_model abstract_model new_model_name field_overrides app_label =
      Except.error PyError.valueError := by
  simp [from_abstract_to_concrete_model, h]

/-- Witness for the amended C8 at a concrete non-abstract template. -/
theorem c8_non_abstract_synthesis_fails_with_value_error_witness :
    (⟨false, [], "mod"⟩ : ModelTemplate).meta_abstract = false ∧
    from_abstract_to_concrete_model ⟨false, [], "mod"⟩ "NewModel" [] "app" =
      Except.error PyError.valueError :=
  ⟨rfl, c8_non_abstract_synthesis_fails_with_value_error ⟨false, [], "mod"⟩ "NewModel" [] "app" rfl⟩

/-- C9: whenever `on_startup` reaches its settings-merging step (i.e. both
model resolvers succeeded), it raises TypeError: the call passes the keyword
`consts_module`, which is not among the parameters `django_settings` and
`module` of `load_missed_consts_from_module_into_settings`. -/
theorem c9_on_startup_merge_step_raises_type_error (env : AuthEnv) (settings : DjangoSettings)
    (consts : PyModule) (g p : Nat) (hg : get_group_model env = Except.ok g)
    (hp : get_permission_model env = Except.ok p) :
    on_startup env settings consts = Except.error PyError.typeError := by
  unfold on_startup
  rw [hg, hp]
  rfl

/-- Witness for C9: a concrete environment in which both resolvers succeed —
necessarily a nonstandard configuration whose `groups` and `permissions`
attributes are plain objects exposing a model class under `model` — reaches
the merging step and raises TypeError. -/
theorem c9_on_startup_merge_step_raises_type_error_witness :
    on_startup ⟨RelAttr.plainObj (Option.some 1), fun _ => RelAttr.plainObj (Option.some 2),
      fun _ => true, fun _ => true⟩ ⟨[]⟩ ⟨[]⟩ = Except.error PyError.typeError :=
  c9_on_startup_merge_step_raises_type_error
    ⟨RelAttr.plainObj (Option.some 1), fun _ => RelAttr.plainObj (Option.some 2),
      fun _ => true, fun _ => true⟩ ⟨[]⟩ ⟨[]⟩ 1 2 rfl rfl

/-- C10: for every name whose underscore-stripped form has at most one
character, `_is_class` raises IndexError (it indexes position 1 of the
stripped name), and hence `ObjInfo.from_name_and_value` raises IndexError for
such names — classification is not total over names. -/
theorem c10_is_class_short_name_index_error (name : String) (value : PyVal)
    (h : (pyStrip name).length ≤ 1) :
    _is_class name = Except.error PyError.indexError ∧
    ObjInfo.from_name_and_value name value = Except.error PyError.indexError := by
  have hl : (pyStrip name).toList.get? 1 = Option.none := by
    rw [List.get?_eq_none]
    exact h
  have hc : _is_class name = Except.error PyError.indexError := by
    unfold _is_class
    rw [hl]
  refine ⟨hc, ?_⟩
  unfold ObjInfo.from_name_and_value
  rw [hc]
  rfl

/-- Witness for C10 at the one-character name "x". -/
theorem c10_is_class_short_name_index_error_witness :
    (pyStrip "x").length ≤ 1 ∧ _is_class "x" = Except.error PyError.indexError ∧
    ObjInfo.from_name_and_value "x" PyVal.noneV = Except.error PyError.indexError :=
  ⟨by decide,
   (c10_is_class_short_name_index_error "x" PyVal.noneV (by decide)).1,
   (c10_is_class_short_name_index_error "x" PyVal.noneV (by decide)).2⟩
